import Mathlib

/-!
Shallow embedding of `src/app/src/main.py` (a Velocitas sample vehicle app).

The app is glue code: three async callback handlers on a `SampleApp` class,
module-level constants and a module-level log-directory cleanup, plus a
`main` entry point.  We embed:

* JSON values and Python's `json.dumps` rendering (default separators);
* the observable side effects of a handler invocation (log lines and
  MQTT publishes) as an explicit effect list;
* each handler as a pure function from its inputs (the signal reply, the
  inbound payload, the point-in-time broker read, the random draw) and the
  application state to the new application state paired with its effects;
* the module-level cleanup loop over the crash-diagnostic log directory;
* name resolution in `main`, to settle the `NameError` claim.

Numeric speed values are modelled as integers (the claims only need that
the value flows through unchanged and that `42` renders as `"42"`); the
uniform random draw of `random.random()` is modelled as a rational input.
-/

/-- Topic constant `GET_SPEED_REQUEST_TOPIC` from the source. -/
def GET_SPEED_REQUEST_TOPIC : String := "sampleapp/getSpeed"

/-- Topic constant `GET_SPEED_RESPONSE_TOPIC` from the source. -/
def GET_SPEED_RESPONSE_TOPIC : String := "sampleapp/getSpeed/response"

/-- Topic constant `DATABROKER_SUBSCRIPTION_TOPIC_SPEED` from the source. -/
def DATABROKER_SUBSCRIPTION_TOPIC_SPEED : String := "sampleapp/currentSpeed"

/-- Topic constant `DATABROKER_SUBSCRIPTION_TOPIC_CRASHED` from the source. -/
def DATABROKER_SUBSCRIPTION_TOPIC_CRASHED : String := "sampleapp/crashed"

/-- Path constant `SPEED_LOG_PATH` from the source. -/
def SPEED_LOG_PATH : String := "logs/vehicle/crash_diagnostic/"

/-- JSON values as constructed by the app: numbers, strings, booleans and
objects (ordered field lists, as Python dict literals are ordered). -/
inductive Json where
  | num (n : Int)
  | str (s : String)
  | bool (b : Bool)
  | obj (fields : List (String × Json))

mutual

/-- Python `json.dumps` with the default separators `", "` and `": "`
(the app passes no options to `json.dumps`). -/
def Json.dumps : Json → String
  | Json.num n => toString n
  | Json.str s => "\"" ++ s ++ "\""
  | Json.bool b => cond b "true" "false"
  | Json.obj fields =>
      "\x7b" ++ String.intercalate ", " (Json.dumpsFields fields) ++ "\x7d"

/-- Renders each `key: value` member of a JSON object. -/
def Json.dumpsFields : List (String × Json) → List String
  | [] => []
  | (k, v) :: rest => ("\"" ++ k ++ "\": " ++ Json.dumps v) :: Json.dumpsFields rest

end

/-- Field lookup in a JSON object (first match); `none` on non-objects. -/
def Json.lookup : Json → String → Option Json
  | Json.obj fields, k => List.lookup k fields
  | _, _ => none

/-- One observable side effect of a handler invocation:
a line written through `loggerCrashDiagnosticSpeed.info`,
a line written through `logger.debug`, or a call to
`self.publish_event(topic, payload)`. -/
inductive Effect where
  | log (line : String)
  | debugLog (line : String)
  | publish (topic : String) (payload : String)
deriving DecidableEq

/-- `VehicleApp.publish_event` of the SDK: publishes `payload` on `topic`. -/
def publish_event (topic : String) (payload : String) : Effect :=
  Effect.publish topic payload

/-- The `(topic, payload)` pairs published by an effect list, in order. -/
def publishes (effs : List Effect) : List (String × String) :=
  effs.filterMap (fun e =>
    match e with
    | Effect.publish t p => some (t, p)
    | _ => none)

/-- The lines written to the crash-diagnostic (`speed`) logger, in order. -/
def infoLogs (effs : List Effect) : List String :=
  effs.filterMap (fun e =>
    match e with
    | Effect.log l => some l
    | _ => none)

/-- The externally supplied broker/transport client (`vehicle_client`);
its contents are irrelevant to the handlers, which only hold it. -/
structure Vehicle where
  clientId : Nat
deriving DecidableEq

/-- A `DataPointReply` delivered to a signal-change callback, restricted to
the one subscribed datapoint: `data.get(self.Vehicle.Speed).value`. -/
structure DataPointReply where
  speed : Int
deriving DecidableEq

/-- The application state: `SampleApp.__init__` stores the vehicle client in
`self.Vehicle` and the class defines no other instance attribute. -/
structure SampleApp where
  Vehicle : Vehicle
deriving DecidableEq

/-- `SampleApp.random_vehicle_crash`: draws `random.random()` (modelled as
the rational input `r`) and compares it with the literal `0.01`. -/
def SampleApp.random_vehicle_crash (_self : SampleApp) (r : ℚ) : Bool :=
  let crashed := decide (r < 1 / 100)
  if crashed then true else false

/-- `SampleApp.on_speed_change`: logs the received value to the
crash-diagnostic logger, then publishes `{"speed": value}` on
`DATABROKER_SUBSCRIPTION_TOPIC_SPEED`.  The method never assigns to
`self`, so the state is returned unchanged. -/
def SampleApp.on_speed_change (self : SampleApp) (data : DataPointReply) :
    SampleApp × List Effect :=
  let vehicle_speed := data.speed
  (self,
   [Effect.log ("vehicle_speed " ++ toString vehicle_speed),
    publish_event DATABROKER_SUBSCRIPTION_TOPIC_SPEED
      (Json.dumps (Json.obj [("speed", Json.num vehicle_speed)]))])

/-- `SampleApp.on_crashed_change`: ignores the reply `data`, draws the crash
trial, and publishes `{"crashed ": True}` (key with trailing space) on
`DATABROKER_SUBSCRIPTION_TOPIC_CRASHED` only when the trial fires. -/
def SampleApp.on_crashed_change (self : SampleApp) (_data : DataPointReply)
    (r : ℚ) : SampleApp × List Effect :=
  let vehicle_crashed := self.random_vehicle_crash r
  (self,
   if vehicle_crashed then
     [publish_event DATABROKER_SUBSCRIPTION_TOPIC_CRASHED
       (Json.dumps (Json.obj [("crashed ", Json.bool vehicle_crashed)]))]
   else [])

/-- `SampleApp.on_get_speed_request_received`: logs the inbound payload at
debug level, reads the current speed from the broker (the read result is
the input `vehicle_speed_read`), and publishes the status/message response
on `GET_SPEED_RESPONSE_TOPIC`. -/
def SampleApp.on_get_speed_request_received (self : SampleApp) (data : String)
    (vehicle_speed_read : Int) : SampleApp × List Effect :=
  let vehicle_speed := vehicle_speed_read
  (self,
   [Effect.debugLog ("PubSub event for the Topic: " ++ GET_SPEED_REQUEST_TOPIC
      ++ " -> is received with the data: " ++ data),
    publish_event GET_SPEED_RESPONSE_TOPIC
      (Json.dumps (Json.obj
        [("result", Json.obj
          [("status", Json.num 0),
           ("message", Json.str ("Current Speed = " ++ toString vehicle_speed))])]))])

/-! ### Module-level cleanup of the crash-diagnostic log directory

At import time the module runs
`for file in os.listdir(SPEED_LOG_PATH): os.remove(SPEED_LOG_PATH + file)`.
We model the directory contents as the list of file names it holds;
`os.listdir` returns that list (a snapshot) and `os.remove` removes one
name from the directory. -/

/-- `os.remove` on one entry of the modelled directory. -/
def os_remove (dir : List String) (file : String) : List String :=
  dir.erase file

/-- The module-level cleanup loop: iterate `os.remove` over the snapshot
`os.listdir(SPEED_LOG_PATH)` of the directory contents. -/
def moduleInitLogCleanup (dir : List String) : List String :=
  (dir).foldl os_remove dir

/-! ### Name resolution in `main`

`main` runs `logger.info(...)`, binds `vehicle_app`, awaits
`vehicle_app.run()` and then awaits `app.run()`.  Python resolves each
name against the function locals and the module globals and raises
`NameError` on an unbound name.  The evaluator below checks exactly that,
statement by statement; it models the situation in which every awaited
call returns (the hypothesis of the claim about `main`). -/

/-- Python expressions appearing in `main`: a bare name, a zero-argument
method call on an object, or a one-argument call of a named callable. -/
inductive PyExpr where
  | name (x : String)
  | callMethod (obj : PyExpr) (m : String)
  | callFn (f : String) (arg : PyExpr)

/-- Python statements appearing in `main`. -/
inductive PyStmt where
  | assign (x : String) (e : PyExpr)
  | exprStmt (e : PyExpr)

/-- The names an expression resolves against the environment, in
left-to-right evaluation order (attribute names are not free names). -/
def PyExpr.freeNames : PyExpr → List String
  | PyExpr.name x => [x]
  | PyExpr.callMethod o _ => o.freeNames
  | PyExpr.callFn f a => f :: a.freeNames

/-- The first name of `xs` that is bound neither locally nor globally. -/
def firstUnbound (env : List String) : List String → Option String
  | [] => none
  | x :: xs => if env.contains x then firstUnbound env xs else some x

/-- Runs a statement list: a statement whose expression holds an unbound
name raises `NameError` on that name; an assignment binds its target. -/
def runStmts (globals : List String) :
    List String → List PyStmt → Except String Unit
  | _, [] => Except.ok ()
  | locals, PyStmt.assign x e :: rest =>
      match firstUnbound (locals ++ globals) e.freeNames with
      | some y => Except.error y
      | none => runStmts globals (x :: locals) rest
  | locals, PyStmt.exprStmt e :: rest =>
      match firstUnbound (locals ++ globals) e.freeNames with
      | some y => Except.error y
      | none => runStmts globals locals rest

/-- Every name bound at module level in `main.py`: the imports, the
module constants, the logging setup (including the leaked loop variable
`file`), the class, `main` itself and `LOOP`.  No commented-out binding
(such as the Flask `app`) is active. -/
def moduleGlobals : List String :=
  ["asyncio", "json", "logging", "TimedRotatingFileHandler", "signal",
   "random", "os", "Vehicle", "vehicle",
   "get_opentelemetry_log_factory", "get_opentelemetry_log_format",
   "DataPointReply", "VehicleApp", "subscribe_topic",
   "logger", "GET_SPEED_REQUEST_TOPIC", "GET_SPEED_RESPONSE_TOPIC",
   "DATABROKER_SUBSCRIPTION_TOPIC_SPEED",
   "DATABROKER_SUBSCRIPTION_TOPIC_CRASHED",
   "SPEED_LOG_PATH", "SPEED_LOGGER_NAME", "SPEED_LOG_FORMAT",
   "file", "speedLogHandler", "loggerCrashDiagnosticSpeed",
   "SampleApp", "main", "LOOP"]

/-- The body of `main`, statement by statement. -/
def mainBody : List PyStmt :=
  [PyStmt.exprStmt (PyExpr.callMethod (PyExpr.name "logger") "info"),
   PyStmt.assign "vehicle_app" (PyExpr.callFn "SampleApp" (PyExpr.name "vehicle")),
   PyStmt.exprStmt (PyExpr.callMethod (PyExpr.name "vehicle_app") "run"),
   PyStmt.exprStmt (PyExpr.callMethod (PyExpr.name "app") "run")]

/-! ### Claim theorems -/

/-- Claim C1: for every numeric speed value delivered to `on_speed_change`,
the handler publishes to the fixed topic `sampleapp/currentSpeed` a JSON
payload whose `speed` field equals the value exactly, and appends one line
containing the value to the diagnostic log. -/
theorem on_speed_change_echoes_speed (app : SampleApp) (d : DataPointReply) :
    publishes (app.on_speed_change d).2 =
      [(DATABROKER_SUBSCRIPTION_TOPIC_SPEED,
        Json.dumps (Json.obj [("speed", Json.num d.speed)]))] ∧
    (Json.obj [("speed", Json.num d.speed)]).lookup "speed" =
      some (Json.num d.speed) ∧
    ∃ pre post, infoLogs (app.on_speed_change d).2 =
      [pre ++ toString d.speed ++ post] := by
  refine ⟨rfl, rfl, "vehicle_speed ", "", ?_⟩
  simp [SampleApp.on_speed_change, infoLogs, publish_event]

/-- Claim C2: for every inbound message on the request topic, if the broker
read of the current speed returns `42`, the published response carries a
`result.message` field equal to the string `"Current Speed = 42"`. -/
theorem get_speed_response_message_at_42 (app : SampleApp) (d : String) :
    ∃ j : Json,
      publishes (app.on_get_speed_request_received d 42).2 =
        [(GET_SPEED_RESPONSE_TOPIC, Json.dumps j)] ∧
      (j.lookup "result").bind (fun res => res.lookup "message") =
        some (Json.str "Current Speed = 42") := by
  refine ⟨Json.obj
    [("result", Json.obj
      [("status", Json.num 0),
       ("message", Json.str ("Current Speed = " ++ toString (42 : Int)))])],
    rfl, ?_⟩
  have h : ("Current Speed = " ++ toString (42 : Int)) = "Current Speed = 42" := by
    decide
  rw [← h]
  rfl

/-- Claim C3: `on_crashed_change` publishes exactly the payload
`{"crashed ": true}` (key with a trailing space) on the fixed topic
`sampleapp/crashed` when the crash trial fires, and publishes nothing
otherwise. -/
theorem on_crashed_change_publish_cases (app : SampleApp)
    (d : DataPointReply) (r : ℚ) :
    (app.on_crashed_change d r).2 =
      if app.random_vehicle_crash r then
        [publish_event DATABROKER_SUBSCRIPTION_TOPIC_CRASHED
          (Json.dumps (Json.obj [("crashed ", Json.bool true)]))]
      else [] := by
  cases h : app.random_vehicle_crash r <;>
    simp [SampleApp.on_crashed_change, h]

/-- Claim C4: whenever the broker speed read succeeds (returning any value
`v`), the response published by the request handler has a `result.status`
field equal to `0`. -/
theorem get_speed_response_status_zero (app : SampleApp) (d : String)
    (v : Int) :
    ∃ j : Json,
      publishes (app.on_get_speed_request_received d v).2 =
        [(GET_SPEED_RESPONSE_TOPIC, Json.dumps j)] ∧
      (j.lookup "result").bind (fun res => res.lookup "status") =
        some (Json.num 0) :=
  ⟨Json.obj
    [("result", Json.obj
      [("status", Json.num 0),
       ("message", Json.str ("Current Speed = " ++ toString v))])],
    rfl, rfl⟩

/-- Claim C5: modelling the uniform draw in `[0, 1)` as the input,
`random_vehicle_crash` returns `true` exactly when the draw is strictly
below `0.01`. -/
theorem random_vehicle_crash_below_threshold (app : SampleApp) (r : ℚ)
    (h0 : 0 ≤ r) (h1 : r < 1) :
    app.random_vehicle_crash r = true ↔ r < 1 / 100 := by
  simp [SampleApp.random_vehicle_crash]

/-- Witness for the crash-trial threshold claim at the draw `1/200`. -/
theorem random_vehicle_crash_below_threshold_witness :
    (0 : ℚ) ≤ 1 / 200 ∧ (1 : ℚ) / 200 < 1 ∧
    ((SampleApp.mk ⟨0⟩).random_vehicle_crash (1 / 200) = true ↔
      (1 : ℚ) / 200 < 1 / 100) :=
  ⟨by norm_num, by norm_num,
   random_vehicle_crash_below_threshold (SampleApp.mk ⟨0⟩) (1 / 200)
     (by norm_num) (by norm_num)⟩

/-- Claim C6: the crash simulator does not depend on the signal value —
for two notifications with different speed values and the same random
draw, `on_crashed_change` produces identical effects. -/
theorem on_crashed_change_ignores_signal (app : SampleApp)
    (d1 d2 : DataPointReply) (r : ℚ) (h : d1.speed ≠ d2.speed) :
    (app.on_crashed_change d1 r).2 = (app.on_crashed_change d2 r).2 := rfl

/-- Witness for signal-independence of the crash simulator at speeds
`0` and `1` with draw `1/2`. -/
theorem on_crashed_change_ignores_signal_witness :
    (DataPointReply.mk 0).speed ≠ (DataPointReply.mk 1).speed ∧
    ((SampleApp.mk ⟨0⟩).on_crashed_change (DataPointReply.mk 0) (1 / 2)).2 =
      ((SampleApp.mk ⟨0⟩).on_crashed_change (DataPointReply.mk 1) (1 / 2)).2 :=
  ⟨by decide,
   on_crashed_change_ignores_signal (SampleApp.mk ⟨0⟩) (DataPointReply.mk 0)
     (DataPointReply.mk 1) (1 / 2) (by decide)⟩

/-- Claim C7: the request handler publishes the same response to the same
topic for any two inbound payloads, given the same broker speed value. -/
theorem get_speed_response_ignores_payload (app : SampleApp)
    (d1 d2 : String) (v : Int) (h : d1 ≠ d2) :
    publishes (app.on_get_speed_request_received d1 v).2 =
      publishes (app.on_get_speed_request_received d2 v).2 := rfl

/-- Witness for payload-independence of the request handler at payloads
`"a"` and `"b"` with broker speed `7`. -/
theorem get_speed_response_ignores_payload_witness :
    ("a" : String) ≠ "b" ∧
    publishes ((SampleApp.mk ⟨0⟩).on_get_speed_request_received "a" 7).2 =
      publishes ((SampleApp.mk ⟨0⟩).on_get_speed_request_received "b" 7).2 :=
  ⟨by decide,
   get_speed_response_ignores_payload (SampleApp.mk ⟨0⟩) "a" "b" 7 (by decide)⟩

/-- Claim C8: every handler invocation leaves the application state
(`self.Vehicle`, the only field) unchanged. -/
theorem handlers_preserve_app_state (app : SampleApp) (d : DataPointReply)
    (r : ℚ) (s : String) (v : Int) :
    (app.on_speed_change d).1 = app ∧
    (app.on_crashed_change d r).1 = app ∧
    (app.on_get_speed_request_received s v).1 = app :=
  ⟨rfl, rfl, rfl⟩

/-- Claim C9: if `vehicle_app.run()` returns, `main` next evaluates
`app.run()` and raises `NameError`, since `app` is bound neither in the
locals of `main` nor at module level. -/
theorem main_raises_name_error_on_app :
    runStmts moduleGlobals [] mainBody = Except.error "app" ∧
    moduleGlobals.contains "app" = false := by
  constructor
  · rfl
  · decide

/-- All entries of a real directory listing are distinct, so folding
`os.remove` over the listing, starting from the listing itself, empties
the directory. -/
theorem foldl_os_remove_self (l : List String) (h : l.Nodup) :
    l.foldl os_remove l = [] := by
  induction l with
  | nil => rfl
  | cons a t ih =>
      rw [List.foldl_cons,
        show os_remove (a :: t) a = t from by
          simp [os_remove]]
      exact ih h.of_cons

/-- Claim C10: at import time, before any handler can run, the module
deletes every existing file in `logs/vehicle/crash_diagnostic/`: after the
cleanup loop the modelled directory is empty. -/
theorem module_init_clears_log_dir (dir : List String) (h : dir.Nodup) :
    moduleInitLogCleanup dir = [] :=
  foldl_os_remove_self dir h

/-- Witness for the log-directory cleanup on a two-file directory. -/
theorem module_init_clears_log_dir_witness :
    (["speed.log", "speed.log.10-00-00"] : List String).Nodup ∧
    moduleInitLogCleanup ["speed.log", "speed.log.10-00-00"] = [] :=
  ⟨by decide, module_init_clears_log_dir ["speed.log", "speed.log.10-00-00"]
    (by decide)⟩
